import Mathlib

/-!
Verification of the `go-regtest` library: a manager for Bitcoin Core regtest
node instances.  The definitions below are a shallow embedding of the Go
source (`regtest.go`, current instance-based version) and of the external
process-controller script (`scripts/bitcoind_manager.sh`).  External effects
(process execution, the RPC client library) are modelled by explicit
environment parameters; the observable interactions of each operation are
recorded in an event trace.
-/

/- ================================================================
   String machinery: models of Go `strings.Contains` and `strings.Split`.
   ================================================================ -/

/-- `leadsWith l pat` is true when `pat` is an initial segment of `l`.
Models the prefix test underlying Go substring search. -/
def leadsWith : List Char → List Char → Bool
  | _, [] => true
  | [], _ :: _ => false
  | a :: as, b :: bs => a = b && leadsWith as bs

/-- `occursIn pat l` is true when `pat` occurs contiguously inside `l`.
Models Go `strings.Contains` at the character-list level. -/
def occursIn (pat : List Char) : List Char → Bool
  | [] => pat.isEmpty
  | c :: cs => leadsWith (c :: cs) pat || occursIn pat cs

/-- Model of Go `strings.Contains s sub`. -/
def strContains (s sub : String) : Bool :=
  occursIn sub.data s.data

/-- Model of Go `strings.Split s ":"` at the character-list level: splits on
every occurrence of `':'`; always returns at least one (possibly empty)
piece. -/
def splitColon : List Char → List (List Char)
  | [] => [[]]
  | c :: rest =>
      let r := splitColon rest
      if c = ':' then [] :: r
      else
        match r with
        | [] => [[c]]
        | h :: t => (c :: h) :: t

theorem splitColon_ne_nil (l : List Char) : splitColon l ≠ [] := by
  induction l with
  | nil => simp [splitColon]
  | cons c rest ih =>
    simp only [splitColon]
    split
    · simp
    · match h : splitColon rest with
      | [] => exact absurd h ih
      | x :: xs => simp

/-- A colon-free list splits into the single piece `[l]`. -/
theorem splitColon_no_colon (l : List Char) (h : ':' ∉ l) :
    splitColon l = [l] := by
  induction l with
  | nil => rfl
  | cons c rest ih =>
    simp only [List.mem_cons, not_or] at h
    have hne : ¬ c = ':' := fun hc => h.1 hc.symm
    simp [splitColon, hne, ih h.2]

/-- Splitting `h ++ ":" ++ p` with `h`, `p` colon-free yields `[h, p]`. -/
theorem splitColon_append (h p : List Char) (hh : ':' ∉ h) (hp : ':' ∉ p) :
    splitColon (h ++ ':' :: p) = [h, p] := by
  induction h with
  | nil => simp [splitColon, splitColon_no_colon p hp]
  | cons c rest ih =>
    simp only [List.mem_cons, not_or] at hh
    have hne : ¬ c = ':' := fun hc => hh.1 hc.symm
    simp [splitColon, hne, ih hh.2]

theorem leadsWith_nil (l : List Char) : leadsWith l [] = true := by
  cases l <;> rfl

/-- If the prefix already matches, appending on the right keeps the match. -/
theorem leadsWith_append_right (l r pat : List Char) (h : leadsWith l pat = true) :
    leadsWith (l ++ r) pat = true := by
  induction pat generalizing l with
  | nil => exact leadsWith_nil _
  | cons b bs ih =>
    cases l with
    | nil => simp [leadsWith] at h
    | cons a as =>
      simp only [leadsWith, Bool.and_eq_true] at h ⊢
      exact ⟨h.1, ih as h.2⟩

/-- An occurrence in a left part is an occurrence in the concatenation. -/
theorem occursIn_append_right (pat l r : List Char) (h : occursIn pat l = true) :
    occursIn pat (l ++ r) = true := by
  induction l with
  | nil =>
    simp only [occursIn, List.isEmpty_iff] at h
    subst h
    cases r with
    | nil => rfl
    | cons c cs => simp [occursIn, leadsWith]
  | cons c cs ih =>
    simp only [occursIn, Bool.or_eq_true] at h ⊢
    rcases h with h | h
    · exact Or.inl (leadsWith_append_right _ _ _ h)
    · exact Or.inr (ih h)

/- ================================================================
   Data model, from `regtest.go` (instance-based version).
   ================================================================ -/

/-- Go struct `Config`: configuration for one regtest instance. -/
structure Config where
  host : String
  user : String
  pass : String
  dataDir : String
  extraArgs : List String
deriving DecidableEq, Repr

/-- Go `DefaultConfig()`. -/
def DefaultConfig : Config :=
  { host := "127.0.0.1:18443"
    user := "user"
    pass := "pass"
    dataDir := "./bitcoind_regtest"
    extraArgs := [] }

/-- Go struct `rpcclient.ConnConfig` (the fields the library sets). -/
structure ConnConfig where
  host : String
  user : String
  pass : String
  httpPostMode : Bool
  disableTLS : Bool
deriving DecidableEq, Repr

/-- Abstract model of a connected `rpcclient.Client` handle: it remembers the
connection configuration it was created from. -/
structure RPCClient where
  connCfg : ConnConfig
deriving DecidableEq, Repr

/-- Go struct `Regtest`: one managed instance.  The two mutexes (`mu`,
`clientMu`) are not data; they are reflected in the concurrent model below,
where each lifecycle operation holds the per-instance lock for its whole
body. -/
structure Regtest where
  config : Config
  scriptPath : String
  scriptTmpDir : String
  client : Option RPCClient
deriving DecidableEq, Repr

/-- Go method `Client()`: returns the RPC client handle, or `none` if not
connected. -/
def Regtest.Client (r : Regtest) : Option RPCClient :=
  r.client

/-- Go method `RPCConfig()`. -/
def Regtest.RPCConfig (r : Regtest) : ConnConfig :=
  { host := r.config.host
    user := r.config.user
    pass := r.config.pass
    httpPostMode := true
    disableTLS := true }

/-- Go method `extractPort()`: splits `Host` on `":"`; if that yields exactly
two parts the second is the port, otherwise the default `"18443"`. -/
def extractPortStr (host : String) : String :=
  match splitColon host.data with
  | [_, p] => String.mk p
  | _ => "18443"

/-- `extractPort` as a method on `Regtest`, as in the source. -/
def Regtest.extractPort (r : Regtest) : String :=
  extractPortStr r.config.host

/- ================================================================
   External effects: controller-script execution and RPC-client creation.
   ================================================================ -/

/-- One invocation of the process-controller script:
`bash scriptPath action dataDir port user pass`. -/
structure CtlCall where
  script : String
  action : String
  dataDir : String
  port : String
  user : String
  pass : String
deriving DecidableEq, Repr

/-- Outcome of `cmd.CombinedOutput()`: the combined output text and whether
the command exited successfully (`err == nil`). -/
structure ExecResult where
  output : String
  ok : Bool
deriving DecidableEq, Repr

/-- Observable interactions of an operation, in order of occurrence. -/
inductive Event where
  /-- `r.client.Shutdown()` followed by `r.client = nil`. -/
  | shutdownClient : Event
  /-- A controller-script invocation. -/
  | ctl : CtlCall → Event
  /-- `rpcclient.New` called with the given connection configuration. -/
  | newClient : ConnConfig → Event
deriving DecidableEq, Repr

/-- A stateful executor for controller-script invocations: given a call and
the current external-world state, produce the command outcome and the new
world state. -/
def StExec (σ : Type) : Type :=
  CtlCall → σ → ExecResult × σ

/-- Environment for `rpcclient.New`: may fail with an error message. -/
def MkClient : Type :=
  ConnConfig → Except String RPCClient

/- ================================================================
   Lifecycle operations, from `regtest.go`.
   ================================================================ -/

/-- The controller invocation assembled by `StartContext`:
`bash scriptPath "start" dataDir port user pass`. -/
def Regtest.startCall (r : Regtest) : CtlCall :=
  { script := r.scriptPath, action := "start", dataDir := r.config.dataDir
    port := r.extractPort, user := r.config.user, pass := r.config.pass }

/-- The controller invocation assembled by `Stop`. -/
def Regtest.stopCall (r : Regtest) : CtlCall :=
  { script := r.scriptPath, action := "stop", dataDir := r.config.dataDir
    port := r.extractPort, user := r.config.user, pass := r.config.pass }

/-- The controller invocation assembled by `IsRunning`. -/
def Regtest.statusCall (r : Regtest) : CtlCall :=
  { script := r.scriptPath, action := "status", dataDir := r.config.dataDir
    port := r.extractPort, user := r.config.user, pass := r.config.pass }

/-- Go method `connectClient()`: if a client already exists this is a no-op
returning `nil`; otherwise `rpcclient.New(r.RPCConfig(), nil)` is called and
the result stored. -/
def Regtest.connectClient (mk : MkClient) (r : Regtest) :
    Except String Unit × Regtest × List Event :=
  match r.client with
  | some _ => (.ok (), r, [])
  | none =>
      match mk r.RPCConfig with
      | .error e => (.error ("failed to create RPC client: " ++ e), r, [.newClient r.RPCConfig])
      | .ok c => (.ok (), { r with client := some c }, [.newClient r.RPCConfig])

/-- Go method `StartContext(ctx)`: runs the controller's `start` action with
data directory, derived port and credentials; on command failure reports
cancellation if the context was cancelled, otherwise a start failure carrying
the controller output; on success establishes the RPC client. -/
def Regtest.startContext {σ : Type} (exe : StExec σ) (mk : MkClient)
    (ctxCancelled : Bool) (r : Regtest) (w : σ) :
    Except String Unit × Regtest × σ × List Event :=
  let call : CtlCall := r.startCall
  let (res, w') := exe call w
  if res.ok then
    let (out, r', ev) := r.connectClient mk
    (out, r', w', Event.ctl call :: ev)
  else if ctxCancelled then
    (.error "start cancelled: context canceled", r, w', [.ctl call])
  else
    (.error ("failed to start bitcoind (script: " ++ r.scriptPath ++ "): " ++ res.output),
      r, w', [.ctl call])

/-- Go method `Start()`: `StartContext(context.Background())`; a background
context is never cancelled. -/
def Regtest.start {σ : Type} (exe : StExec σ) (mk : MkClient) (r : Regtest) (w : σ) :
    Except String Unit × Regtest × σ × List Event :=
  r.startContext exe mk false w

/-- Go method `Stop()`: first shuts down and clears the RPC client if one
exists, then runs the controller's `stop` action; a command failure is
reported but the client stays cleared. -/
def Regtest.stop {σ : Type} (exe : StExec σ) (r : Regtest) (w : σ) :
    Except String Unit × Regtest × σ × List Event :=
  let (ev1, r1) :=
    match r.client with
    | some _ => ([Event.shutdownClient], { r with client := none })
    | none => ([], r)
  let call : CtlCall := r1.stopCall
  let (res, w') := exe call w
  if res.ok then
    (.ok (), r1, w', ev1 ++ [.ctl call])
  else
    (.error ("failed to stop bitcoind: " ++ res.output), r1, w', ev1 ++ [.ctl call])

/-- Go method `IsRunning()`: runs the controller's `status` action; on
success, reports whether the output contains the marker `"is running"`; on
command failure, reports a status-check error. -/
def Regtest.isRunning {σ : Type} (exe : StExec σ) (r : Regtest) (w : σ) :
    Except String Bool × σ × List Event :=
  let call : CtlCall := r.statusCall
  let (res, w') := exe call w
  if res.ok then
    (.ok (strContains res.output "is running"), w', [.ctl call])
  else
    (.error ("failed to check bitcoind status: " ++ res.output), w', [.ctl call])

/-- Go method `Cleanup()`: removes the temporary script directory if one is
still recorded; idempotent. -/
def Regtest.cleanup (r : Regtest) : Except String Unit × Regtest :=
  if r.scriptTmpDir ≠ "" then
    (.ok (), { r with scriptTmpDir := "", scriptPath := "" })
  else
    (.ok (), r)

/- ================================================================
   Process-controller model, from `scripts/bitcoind_manager.sh`.
   The script hardcodes `DATADIR="$(pwd)/bitcoind_regtest"`,
   `RPC_PORT="18443"`, `RPC_USER="user"`, `RPC_PASS="pass"` and dispatches
   only on its first argument, ignoring the remaining positional
   parameters; `is_running` probes the port with `lsof`.
   ================================================================ -/

/-- External-world state the script observes and changes: whether a process
is listening on the script's RPC port, and whether the script's data
directory exists. -/
structure NodeWorld where
  running : Bool
  datadirExists : Bool
deriving DecidableEq, Repr

/-- Nondeterministic outcomes of the external process, fixed per run:
`pwd` when the script executes, whether the launched daemon ends up
listening, whether the readiness poll (`bitcoin-cli getblockcount`, up to 20
tries) succeeds, and the outcomes of the graceful/TERM/KILL stop escalation. -/
structure ScriptEnv where
  pwd : String
  daemonStarts : Bool
  becomesReady : Bool
  cliStopOk : Bool
  diesAfterCli : Bool
  diesAfterTerm : Bool
  diesAfterKill : Bool
deriving DecidableEq, Repr

/-- The script's `DATADIR="$(pwd)/bitcoind_regtest"`. -/
def ScriptEnv.datadir (e : ScriptEnv) : String :=
  e.pwd ++ "/bitcoind_regtest"

/-- `start_bitcoind`: fails if already running; otherwise cleans and recreates
the data directory, launches the daemon and polls for readiness, failing
after the bounded retry budget. -/
def scriptStart (e : ScriptEnv) (w : NodeWorld) : ExecResult × NodeWorld :=
  if w.running then
    ({ output := "ERROR: bitcoind is already running on port 18443\n", ok := false }, w)
  else
    let cleanMsg := if w.datadirExists then "Cleaning up existing datadir...\n" else ""
    let pre := cleanMsg ++ "Starting bitcoind in regtest mode...\nWaiting for bitcoind to be ready...\n"
    let w' : NodeWorld := { running := e.daemonStarts, datadirExists := true }
    if e.daemonStarts && e.becomesReady then
      ({ output := pre ++ "bitcoind is ready!\n", ok := true }, w')
    else
      ({ output := pre ++ "ERROR: bitcoind failed to start properly\n", ok := false }, w')

/-- `stop_bitcoind`: a no-op success (plus data-directory cleanup) when not
running; otherwise graceful RPC stop, then TERM, then KILL escalation,
data-directory cleanup, and success. -/
def scriptStop (e : ScriptEnv) (w : NodeWorld) : ExecResult × NodeWorld :=
  if !w.running then
    let cleanMsg := if w.datadirExists then "Cleaning up datadir...\n" else ""
    ({ output := "bitcoind is not running\n" ++ cleanMsg, ok := true },
      { running := false, datadirExists := false })
  else
    let graceMsg := if e.cliStopOk then "Sent stop command via RPC\n" else ""
    let afterGrace := !(e.cliStopOk && e.diesAfterCli)
    let forceMsg := if afterGrace then "Force killing bitcoind...\n" else ""
    let afterTerm := afterGrace && !e.diesAfterTerm
    let afterKill := afterTerm && !e.diesAfterKill
    let cleanMsg := if w.datadirExists then "Cleaning up datadir...\n" else ""
    ({ output := "Stopping bitcoind...\n" ++ graceMsg ++ forceMsg ++ cleanMsg
        ++ "bitcoind stopped\n", ok := true },
      { running := afterKill, datadirExists := false })

/-- `status_bitcoind`: reports the liveness probe's result; always exits
zero; does not change the world. -/
def scriptStatus (e : ScriptEnv) (w : NodeWorld) : ExecResult × NodeWorld :=
  if w.running then
    let ddMsg := if w.datadirExists then "datadir: " ++ e.datadir ++ "\n" else ""
    ({ output := "bitcoind is running on port 18443\n" ++ ddMsg, ok := true }, w)
  else
    ({ output := "bitcoind is not running\n", ok := true }, w)

/-- The script's `case "$1" in ...` dispatch; an unknown action prints usage
and exits non-zero. -/
def scriptRun (e : ScriptEnv) : StExec NodeWorld := fun call w =>
  if call.action = "start" then scriptStart e w
  else if call.action = "stop" then scriptStop e w
  else if call.action = "status" then scriptStatus e w
  else ({ output := "Usage: " ++ call.script ++ " \x7bstart|stop|status\x7d\n", ok := false }, w)

/- ================================================================
   Helper lemmas.
   ================================================================ -/

theorem strContains_append_right (s t sub : String) (h : strContains s sub = true) :
    strContains (s ++ t) sub = true := by
  unfold strContains at *
  rw [String.data_append]
  exact occursIn_append_right _ _ _ h

theorem marker_in_running_status (dd : String) :
    strContains ("bitcoind is running on port 18443\n" ++ dd) "is running" = true :=
  strContains_append_right _ _ _ (by decide)

theorem marker_not_in_stopped_status :
    strContains "bitcoind is not running\n" "is running" = false := by decide

/-- A successful `status` run of the script reports exactly the node's
liveness through the `"is running"` marker. -/
theorem scriptStatus_marker (e : ScriptEnv) (w : NodeWorld) :
    (scriptStatus e w).1.ok = true ∧
    strContains (scriptStatus e w).1.output "is running" = w.running := by
  cases hw : w.running with
  | false => exact ⟨by simp [scriptStatus, hw], by simp [scriptStatus, hw, marker_not_in_stopped_status]⟩
  | true => exact ⟨by simp [scriptStatus, hw], by simp [scriptStatus, hw, marker_in_running_status]⟩

/-- The script's `status` action does not change the world. -/
theorem scriptStatus_world (e : ScriptEnv) (w : NodeWorld) :
    (scriptStatus e w).2 = w := by
  cases hw : w.running <;> simp [scriptStatus, hw]

/-- `IsRunning` through the shipped script reports exactly the node's
liveness and leaves the world unchanged. -/
theorem isRunning_scriptRun (e : ScriptEnv) (r : Regtest) (nw : NodeWorld) :
    (r.isRunning (scriptRun e) nw).1 = .ok nw.running ∧
    (r.isRunning (scriptRun e) nw).2.1 = nw := by
  have hm := scriptStatus_marker e nw
  have hw := scriptStatus_world e nw
  simp only [Regtest.isRunning, scriptRun, Regtest.statusCall]
  norm_num only
  simp [hm.1, hm.2, hw]

theorem data_append_ne_nil (s t : String) (h : s.data ≠ []) : (s ++ t).data ≠ [] := by
  rw [String.data_append]
  intro he
  exact h (List.append_eq_nil.mp he).1

theorem ne_empty_of_data_ne_nil (s : String) (h : s.data ≠ []) : s ≠ "" :=
  fun he => h (by rw [he])

/- ================================================================
   Concrete sample values used by the closed witness theorems.
   ================================================================ -/

/-- The connection configuration `RPCConfig()` produces for the defaults. -/
def sampleConn : ConnConfig :=
  { host := "127.0.0.1:18443", user := "user", pass := "pass"
    httpPostMode := true, disableTLS := true }

/-- A freshly constructed default instance (no session). -/
def sampleRT : Regtest :=
  { config := DefaultConfig, scriptPath := "/tmp/x/bitcoind_manager.sh"
    scriptTmpDir := "/tmp/x", client := none }

/-- A default instance holding a live session. -/
def sampleRTConnected : Regtest :=
  { sampleRT with client := some { connCfg := sampleConn } }

/-- An RPC-client factory that always succeeds. -/
def sampleMk : MkClient := fun cfg => .ok { connCfg := cfg }

/-- An executor whose commands always succeed. -/
def okExec : StExec Unit := fun _ u => ({ output := "bitcoind stopped\n", ok := true }, u)

/- ================================================================
   Claim theorems.
   ================================================================ -/

/-- C1: every call to `Stop` tears down the RPC session — the client handle
is shut down and cleared — before the controller's stop action is invoked
(the trace puts `shutdownClient` strictly before the `stop` controller call
whenever a session existed), and once `Stop` returns, whether it succeeds or
reports a stop failure, `Client()` returns `none`. -/
theorem stop_closes_session_before_controller {σ : Type} (exe : StExec σ) (r : Regtest) (w : σ) :
    (r.stop exe w).2.1.Client = none ∧
    (r.client.isSome = true →
      (r.stop exe w).2.2.2 = [Event.shutdownClient, Event.ctl r.stopCall]) ∧
    (r.client = none → (r.stop exe w).2.2.2 = [Event.ctl r.stopCall]) := by
  cases hc : r.client with
  | none =>
    refine ⟨?_, ?_, ?_⟩ <;>
      simp only [Regtest.stop, Regtest.Client, hc] <;> split <;> simp [hc]
  | some c =>
    refine ⟨?_, ?_, ?_⟩ <;>
      simp only [Regtest.stop, Regtest.Client, Regtest.stopCall, Regtest.extractPort, hc] <;>
      split <;> simp [hc]

/-- Witness for the hypotheses of `stop_closes_session_before_controller`
at a concrete instance holding a session and a concrete executor. -/
theorem stop_closes_session_before_controller_witness :
    (sampleRTConnected.stop okExec ()).2.1.Client = none ∧
    (sampleRTConnected.client.isSome = true →
      (sampleRTConnected.stop okExec ()).2.2.2 =
        [Event.shutdownClient, Event.ctl sampleRTConnected.stopCall]) ∧
    (sampleRTConnected.client = none →
      (sampleRTConnected.stop okExec ()).2.2.2 = [Event.ctl sampleRTConnected.stopCall]) :=
  stop_closes_session_before_controller okExec sampleRTConnected ()

/-- C5: when the controller's status action executes successfully,
`IsRunning` returns exactly the `"is running"`-marker containment of the
controller's output (so unrecognized output yields `false` with no error),
and it returns an error precisely when the status action itself fails; with
the shipped controller script the returned value is exactly the node's
liveness. -/
theorem isRunning_marker_parse {σ : Type} (exe : StExec σ) (r : Regtest) (w : σ) :
    ((exe r.statusCall w).1.ok = true →
      (r.isRunning exe w).1 = .ok (strContains (exe r.statusCall w).1.output "is running")) ∧
    ((exe r.statusCall w).1.ok = false →
      (r.isRunning exe w).1 =
        .error ("failed to check bitcoind status: " ++ (exe r.statusCall w).1.output)) ∧
    (∀ (e : ScriptEnv) (nw : NodeWorld),
      (r.isRunning (scriptRun e) nw).1 = .ok nw.running) := by
  refine ⟨?_, ?_, ?_⟩
  · intro h
    simp [Regtest.isRunning, h]
  · intro h
    simp [Regtest.isRunning, h]
  · intro e nw
    exact (isRunning_scriptRun e r nw).1

/-- Witness for `isRunning_marker_parse` at a concrete instance, a concrete
executor and the shipped script. -/
theorem isRunning_marker_parse_witness :
    ((okExec sampleRT.statusCall ()).1.ok = true →
      (sampleRT.isRunning okExec ()).1 =
        .ok (strContains (okExec sampleRT.statusCall ()).1.output "is running")) ∧
    ((okExec sampleRT.statusCall ()).1.ok = false →
      (sampleRT.isRunning okExec ()).1 =
        .error ("failed to check bitcoind status: " ++ (okExec sampleRT.statusCall ()).1.output)) ∧
    (∀ (e : ScriptEnv) (nw : NodeWorld),
      (sampleRT.isRunning (scriptRun e) nw).1 = .ok nw.running) :=
  isRunning_marker_parse okExec sampleRT ()

/-- C9: an instance holds at most one live session (`client` is an optional
handle), and `connectClient` invoked while a session exists is a no-op: it
succeeds, keeps the existing session, leaves the instance unchanged and does
not call `rpcclient.New`. -/
theorem connectClient_noop_when_connected (mk : MkClient) (r : Regtest) (c : RPCClient)
    (h : r.client = some c) :
    r.connectClient mk = (.ok (), r, []) ∧ (r.connectClient mk).2.1.client = some c := by
  constructor
  · simp [Regtest.connectClient, h]
  · simp [Regtest.connectClient, h]

/-- Witness for `connectClient_noop_when_connected` at a concrete connected
instance. -/
theorem connectClient_noop_when_connected_witness :
    sampleRTConnected.connectClient sampleMk = (.ok (), sampleRTConnected, []) ∧
    (sampleRTConnected.connectClient sampleMk).2.1.client = some { connCfg := sampleConn } :=
  connectClient_noop_when_connected sampleMk sampleRTConnected { connCfg := sampleConn } rfl

/-- An RPC-client factory that always fails (endpoint unreachable). -/
def errMk : MkClient := fun _ => .error "dial tcp 127.0.0.1:18443: connect: connection refused"

/-- C3: if the controller's start action succeeds but establishing the RPC
session fails, `Start`/`StartContext` returns a session-establishment error
and leaves the instance unchanged with no session (`Ready`, not `Running`),
so the caller may retry. -/
theorem start_session_establish_failure {σ : Type} (exe : StExec σ) (mk : MkClient)
    (cancelled : Bool) (r : Regtest) (w : σ) (e : String)
    (hstart : (exe r.startCall w).1.ok = true)
    (hmk : mk r.RPCConfig = .error e)
    (hclient : r.client = none) :
    (r.startContext exe mk cancelled w).1 = .error ("failed to create RPC client: " ++ e) ∧
    (r.startContext exe mk cancelled w).2.1 = r ∧
    (r.startContext exe mk cancelled w).2.1.Client = none := by
  refine ⟨?_, ?_, ?_⟩ <;>
    simp [Regtest.startContext, hstart, Regtest.connectClient, hclient, hmk, Regtest.Client]

/-- Witness for `start_session_establish_failure` at a concrete instance
whose controller start succeeds while client creation fails. -/
theorem start_session_establish_failure_witness :
    (sampleRT.startContext okExec errMk false ()).1 =
      .error ("failed to create RPC client: "
        ++ "dial tcp 127.0.0.1:18443: connect: connection refused") ∧
    (sampleRT.startContext okExec errMk false ()).2.1 = sampleRT ∧
    (sampleRT.startContext okExec errMk false ()).2.1.Client = none :=
  start_session_establish_failure okExec errMk false sampleRT () _ rfl rfl rfl

/-- C4: the listening port handed to every controller invocation made by
`Start`, `Stop` and `IsRunning` is derived from the configured endpoint
address: the text after the colon when the address has the form
`host:port`, and the conventional default `"18443"` when the address has no
colon at all. -/
theorem lifecycle_port_derivation :
    (∀ h p : String, ':' ∉ h.data → ':' ∉ p.data →
      extractPortStr (h ++ ":" ++ p) = p) ∧
    (∀ host : String, ':' ∉ host.data → extractPortStr host = "18443") ∧
    (∀ (σ : Type) (exe : StExec σ) (mk : MkClient) (cancelled : Bool) (r : Regtest)
        (w : σ) (c : CtlCall),
      Event.ctl c ∈ (r.startContext exe mk cancelled w).2.2.2 →
        c.port = extractPortStr r.config.host) ∧
    (∀ (σ : Type) (exe : StExec σ) (r : Regtest) (w : σ) (c : CtlCall),
      Event.ctl c ∈ (r.stop exe w).2.2.2 → c.port = extractPortStr r.config.host) ∧
    (∀ (σ : Type) (exe : StExec σ) (r : Regtest) (w : σ) (c : CtlCall),
      Event.ctl c ∈ (r.isRunning exe w).2.2 → c.port = extractPortStr r.config.host) := by
  refine ⟨?_, ?_, ?_, ?_, ?_⟩
  · intro h p hh hp
    unfold extractPortStr
    have hd : (h ++ ":" ++ p).data = h.data ++ ':' :: p.data := by
      simp [String.data_append]
    rw [hd, splitColon_append _ _ hh hp]
  · intro host hhost
    unfold extractPortStr
    rw [splitColon_no_colon host.data hhost]
  · intro σ exe mk cancelled r w c hmem
    simp only [Regtest.startContext] at hmem
    split at hmem
    · rcases hcl : r.client with _ | cl <;>
        rcases hmk : mk r.RPCConfig with e | cl' <;>
        simp [Regtest.connectClient, hcl, hmk, Regtest.startCall, Regtest.extractPort] at hmem <;>
        simp [hmem, Regtest.startCall, Regtest.extractPort]
    · split at hmem <;> simp at hmem <;> simp [hmem, Regtest.startCall, Regtest.extractPort]
  · intro σ exe r w c hmem
    rcases hcl : r.client with _ | cl <;>
      simp only [Regtest.stop, hcl] at hmem <;>
      split at hmem <;> simp at hmem <;>
      simp [hmem, Regtest.stopCall, Regtest.extractPort]
  · intro σ exe r w c hmem
    simp only [Regtest.isRunning] at hmem
    split at hmem <;> simp at hmem <;> simp [hmem, Regtest.statusCall, Regtest.extractPort]

/-- Witness for `lifecycle_port_derivation`, instantiating each conjunct at
concrete inputs. -/
theorem lifecycle_port_derivation_witness :
    extractPortStr ("127.0.0.1" ++ ":" ++ "19000") = "19000" ∧
    extractPortStr "localhost" = "18443" ∧
    sampleRT.startCall.port = extractPortStr sampleRT.config.host ∧
    sampleRT.stopCall.port = extractPortStr sampleRT.config.host ∧
    sampleRT.statusCall.port = extractPortStr sampleRT.config.host :=
  ⟨lifecycle_port_derivation.1 "127.0.0.1" "19000" (by decide) (by decide),
   lifecycle_port_derivation.2.1 "localhost" (by decide),
   lifecycle_port_derivation.2.2.1 Unit okExec sampleMk false sampleRT () sampleRT.startCall
     (by simp [Regtest.startContext, okExec, Regtest.connectClient, sampleRT, sampleMk]),
   lifecycle_port_derivation.2.2.2.1 Unit okExec sampleRT () sampleRT.stopCall
     (by simp [Regtest.stop, okExec, sampleRT]),
   lifecycle_port_derivation.2.2.2.2 Unit okExec sampleRT () sampleRT.statusCall
     (by simp [Regtest.isRunning, okExec])⟩

/-- C6: calling `Stop` on an instance whose node is not running — including
before any `Start` — succeeds, and a subsequent `IsRunning` reports
`false`. -/
theorem stop_when_not_running_succeeds (e e' : ScriptEnv) (r : Regtest) (w : NodeWorld)
    (h : w.running = false) :
    (r.stop (scriptRun e) w).1 = .ok () ∧
    ((r.stop (scriptRun e) w).2.1.isRunning (scriptRun e')
        (r.stop (scriptRun e) w).2.2.1).1 = .ok false := by
  have hstop : (r.stop (scriptRun e) w).1 = .ok () ∧
      (r.stop (scriptRun e) w).2.2.1.running = false := by
    rcases hcl : r.client with _ | cl <;>
      simp only [Regtest.stop, hcl, scriptRun, Regtest.stopCall] <;>
      norm_num only <;>
      simp [scriptStop, h]
  refine ⟨hstop.1, ?_⟩
  have := (isRunning_scriptRun e' (r.stop (scriptRun e) w).2.1 (r.stop (scriptRun e) w).2.2.1).1
  rw [this, hstop.2]

/-- Witness for `stop_when_not_running_succeeds` at a concrete
never-started instance and a non-running node. -/
theorem stop_when_not_running_succeeds_witness :
    (({ running := false, datadirExists := false } : NodeWorld).running = false) ∧
    ((sampleRT.stop (scriptRun
        { pwd := "/home/dev", daemonStarts := true, becomesReady := true, cliStopOk := true
          diesAfterCli := true, diesAfterTerm := true, diesAfterKill := true })
        { running := false, datadirExists := false }).1 = .ok () ∧
      ((sampleRT.stop (scriptRun
          { pwd := "/home/dev", daemonStarts := true, becomesReady := true, cliStopOk := true
            diesAfterCli := true, diesAfterTerm := true, diesAfterKill := true })
          { running := false, datadirExists := false }).2.1.isRunning
        (scriptRun
          { pwd := "/home/dev", daemonStarts := true, becomesReady := true, cliStopOk := true
            diesAfterCli := true, diesAfterTerm := true, diesAfterKill := true })
        (sampleRT.stop (scriptRun
          { pwd := "/home/dev", daemonStarts := true, becomesReady := true, cliStopOk := true
            diesAfterCli := true, diesAfterTerm := true, diesAfterKill := true })
          { running := false, datadirExists := false }).2.2.1).1 = .ok false) :=
  ⟨rfl, stop_when_not_running_succeeds _ _ sampleRT _ rfl⟩

/-- The external-world outcome used in concrete start-failure scenarios:
a node already occupies the script's port. -/
def cexEnv : ScriptEnv :=
  { pwd := "/home/dev", daemonStarts := false, becomesReady := false, cliStopOk := true
    diesAfterCli := true, diesAfterTerm := true, diesAfterKill := true }

/-- A world in which a node is already running on the port. -/
def cexWorld : NodeWorld := { running := true, datadirExists := false }

/-- C7 counterexample: when the controller's start action fails because a
node is already running on the port, `Start` returns the diagnostic-carrying
error but a subsequent `IsRunning()` reports `true`, not `false`. -/
theorem start_failure_isRunning_true_cex :
    (sampleRT.start (scriptRun cexEnv) sampleMk cexWorld).1 =
      .error ("failed to start bitcoind (script: /tmp/x/bitcoind_manager.sh): "
        ++ "ERROR: bitcoind is already running on port 18443\n") ∧
    ((sampleRT.start (scriptRun cexEnv) sampleMk cexWorld).2.1.isRunning (scriptRun cexEnv)
        (sampleRT.start (scriptRun cexEnv) sampleMk cexWorld).2.2.1).1 = .ok true := by
  constructor
  · rfl
  · rfl

/-- C7 (amended): whenever the controller's start action fails, `Start`
returns a start-failure error that carries the controller's diagnostic
output verbatim and is non-empty; a subsequent `IsRunning()` reports exactly
whether a node still occupies the port afterwards — `false` whenever the
failed attempt left no node running, but `true` when `Start` failed because
the node was already running. -/
theorem start_failure_diagnostics (e e' : ScriptEnv) (mk : MkClient) (r : Regtest)
    (w : NodeWorld)
    (hfail : (scriptRun e r.startCall w).1.ok = false) :
    (r.start (scriptRun e) mk w).1 =
      .error ("failed to start bitcoind (script: " ++ r.scriptPath ++ "): "
        ++ (scriptRun e r.startCall w).1.output) ∧
    ("failed to start bitcoind (script: " ++ r.scriptPath ++ "): "
        ++ (scriptRun e r.startCall w).1.output) ≠ "" ∧
    ((r.start (scriptRun e) mk w).2.1.isRunning (scriptRun e')
        (r.start (scriptRun e) mk w).2.2.1).1 =
      .ok ((r.start (scriptRun e) mk w).2.2.1.running) := by
  refine ⟨?_, ?_, ?_⟩
  · simp [Regtest.start, Regtest.startContext, hfail]
  · exact ne_empty_of_data_ne_nil _
      (data_append_ne_nil _ _
        (data_append_ne_nil _ _
          (data_append_ne_nil "failed to start bitcoind (script: " r.scriptPath (by decide))))
  · exact (isRunning_scriptRun e' _ _).1

/-- Witness for `start_failure_diagnostics` at the concrete already-running
scenario. -/
theorem start_failure_diagnostics_witness :
    ((scriptRun cexEnv sampleRT.startCall cexWorld).1.ok = false) ∧
    ((sampleRT.start (scriptRun cexEnv) sampleMk cexWorld).1 =
      .error ("failed to start bitcoind (script: " ++ sampleRT.scriptPath ++ "): "
        ++ (scriptRun cexEnv sampleRT.startCall cexWorld).1.output) ∧
    ("failed to start bitcoind (script: " ++ sampleRT.scriptPath ++ "): "
        ++ (scriptRun cexEnv sampleRT.startCall cexWorld).1.output) ≠ "" ∧
    ((sampleRT.start (scriptRun cexEnv) sampleMk cexWorld).2.1.isRunning (scriptRun cexEnv)
        (sampleRT.start (scriptRun cexEnv) sampleMk cexWorld).2.2.1).1 =
      .ok ((sampleRT.start (scriptRun cexEnv) sampleMk cexWorld).2.2.1.running)) :=
  ⟨rfl, start_failure_diagnostics cexEnv cexEnv sampleMk sampleRT cexWorld rfl⟩

/- ================================================================
   Memory-level model of configuration copying, for the aliasing claims
   about `New` and `Config()`.  Go slices are references into backing
   arrays; `append([]string(nil), src...)` allocates a fresh backing array
   holding a copy of the elements, and `&Config{...}` allocates a fresh
   Config value.  The heap below makes those allocations explicit so that
   mutation through a caller-held pointer is expressible.
   ================================================================ -/

/-- A Config value as laid out in memory: scalar fields inline, the
extra-arguments slice as a reference into the slice heap. -/
structure MConfigVal where
  host : String
  user : String
  pass : String
  dataDir : String
  extraArgs : Nat
deriving DecidableEq, Repr

/-- Zero value used for out-of-bounds reads (never exercised under the
wellformedness hypotheses). -/
def dummyCfgVal : MConfigVal :=
  { host := "", user := "", pass := "", dataDir := "", extraArgs := 0 }

/-- A heap of allocated Config values and slice backing arrays. -/
structure Heap where
  cfgCells : List MConfigVal
  sliceCells : List (List String)
deriving DecidableEq, Repr

def Heap.allocSlice (h : Heap) (v : List String) : Heap × Nat :=
  ({ h with sliceCells := h.sliceCells ++ [v] }, h.sliceCells.length)

def Heap.allocCfg (h : Heap) (v : MConfigVal) : Heap × Nat :=
  ({ h with cfgCells := h.cfgCells ++ [v] }, h.cfgCells.length)

def Heap.readSlice (h : Heap) (i : Nat) : List String :=
  h.sliceCells.getD i []

def Heap.readCfg (h : Heap) (i : Nat) : MConfigVal :=
  h.cfgCells.getD i dummyCfgVal

/-- Mutation of a slice's contents through a held reference. -/
def Heap.writeSlice (h : Heap) (i : Nat) (v : List String) : Heap :=
  { h with sliceCells := h.sliceCells.set i v }

/-- Mutation of a Config value through a held pointer. -/
def Heap.writeCfg (h : Heap) (i : Nat) (v : MConfigVal) : Heap :=
  { h with cfgCells := h.cfgCells.set i v }

/-- The caller-visible value behind a Config pointer: every field, with the
extra-arguments slice dereferenced.  Expressed as the plain `Config` of the
sequential model. -/
def Heap.observe (h : Heap) (p : Nat) : Config :=
  let v := h.readCfg p
  { host := v.host, user := v.user, pass := v.pass, dataDir := v.dataDir
    extraArgs := h.readSlice v.extraArgs }

/-- `DefaultConfig()` at the memory level: a fresh nil slice and a fresh
Config cell holding the default field values. -/
def defaultConfigM (h : Heap) : Heap × Nat :=
  let (h1, s) := h.allocSlice []
  h1.allocCfg
    { host := "127.0.0.1:18443", user := "user", pass := "pass"
      dataDir := "./bitcoind_regtest", extraArgs := s }

/-- The configuration-storing step of `New(config)` at the memory level: an
absent configuration is replaced by `DefaultConfig()`; otherwise the stored
copy duplicates every field and deep-copies the extra-arguments slice
(`append([]string(nil), config.ExtraArgs...)`). -/
def newConfigM (h : Heap) (cfgPtr : Option Nat) : Heap × Nat :=
  match cfgPtr with
  | none => defaultConfigM h
  | some p =>
      let v := h.readCfg p
      let (h1, s) := h.allocSlice (h.readSlice v.extraArgs)
      h1.allocCfg
        { host := v.host, user := v.user, pass := v.pass
          dataDir := v.dataDir, extraArgs := s }

/-- `Config()` at the memory level: returns a pointer to a freshly allocated
copy of the stored configuration whose extra-arguments slice is freshly
allocated as well. -/
def configM (h : Heap) (stored : Nat) : Heap × Nat :=
  let v := h.readCfg stored
  let (h1, s) := h.allocSlice (h.readSlice v.extraArgs)
  h1.allocCfg
    { host := v.host, user := v.user, pass := v.pass
      dataDir := v.dataDir, extraArgs := s }

/-- A Config pointer is wellformed in a heap when it and its slice reference
are in bounds. -/
def Heap.wf (h : Heap) (p : Nat) : Prop :=
  p < h.cfgCells.length ∧ (h.readCfg p).extraArgs < h.sliceCells.length

theorem getD_append_length {α : Type} (l : List α) (v : α) (d : α) :
    (l ++ [v]).getD l.length d = v := by
  simp [List.getD]

theorem getD_set_ne {α : Type} (l : List α) (i j : Nat) (v d : α) (h : i ≠ j) :
    (l.set i v).getD j d = l.getD j d := by
  induction l generalizing i j with
  | nil => rfl
  | cons a as ih =>
    cases i with
    | zero =>
      cases j with
      | zero => exact absurd rfl h
      | succ j' => rfl
    | succ i' =>
      cases j with
      | zero => rfl
      | succ j' =>
        simpa [List.getD] using ih i' j' (fun he => h (by rw [he]))

/-- A `Config()` copy observes to exactly the stored configuration's value,
for any heap. -/
theorem configM_observe (h : Heap) (stored : Nat) :
    (configM h stored).1.observe (configM h stored).2 = h.observe stored := by
  simp only [configM, Heap.allocSlice, Heap.allocCfg, Heap.observe, Heap.readCfg,
    Heap.readSlice]
  rw [getD_append_length, getD_append_length]

/-- Perform `Config()` and then arbitrary caller mutations of the returned
copy: overwrite the returned Config cell with `v` and the returned copy's
extra-arguments backing array with `ws`. -/
def mutateReturnedCopy (h : Heap) (stored : Nat) (v : MConfigVal) (ws : List String) : Heap :=
  let (h1, p) := configM h stored
  (h1.writeCfg p v).writeSlice (h1.readCfg p).extraArgs ws

/-- C8: `Config()` returns a configuration equal in every field to the one
the instance stores (and an instance constructed with an absent
configuration stores a value equal to `DefaultConfig()`), and mutating a
returned copy — overwriting its fields or the contents of its
extra-arguments slice — never changes the stored configuration or what a
subsequent `Config()` call returns. -/
theorem config_copy_independent (h : Heap) (stored : Nat) (hwf : h.wf stored) :
    (configM h stored).1.observe (configM h stored).2 = h.observe stored ∧
    (∀ h0 : Heap, (newConfigM h0 none).1.observe (newConfigM h0 none).2 = DefaultConfig) ∧
    (∀ (v : MConfigVal) (ws : List String),
      (mutateReturnedCopy h stored v ws).observe stored = h.observe stored ∧
      (configM (mutateReturnedCopy h stored v ws) stored).1.observe
        (configM (mutateReturnedCopy h stored v ws) stored).2 = h.observe stored) := by
  refine ⟨configM_observe h stored, ?_, ?_⟩
  · intro h0
    simp only [newConfigM, defaultConfigM, Heap.allocSlice, Heap.allocCfg, Heap.observe,
      Heap.readCfg, Heap.readSlice]
    rw [getD_append_length, getD_append_length]
    rfl
  · intro v ws
    have hmut : (mutateReturnedCopy h stored v ws).observe stored = h.observe stored := by
      obtain ⟨hp, hs⟩ := hwf
      simp only [Heap.readCfg] at hs
      simp only [mutateReturnedCopy, configM, Heap.allocSlice, Heap.allocCfg,
        Heap.writeCfg, Heap.writeSlice, Heap.observe, Heap.readCfg, Heap.readSlice]
      rw [getD_append_length]
      dsimp only
      rw [getD_set_ne _ _ _ _ _ (Nat.ne_of_gt hp)]
      rw [List.getD_append _ _ _ _ hp]
      rw [getD_set_ne _ _ _ _ _ (Nat.ne_of_gt hs)]
      rw [List.getD_append _ _ _ _ hs]
    exact ⟨hmut, by rw [configM_observe, hmut]⟩

/-- Concrete heap for the configuration witness: one stored configuration
with a nonempty extra-arguments slice. -/
def sampleHeap : Heap :=
  { cfgCells := [
      { host := "127.0.0.1:19000", user := "u", pass := "p",
        dataDir := "./d1", extraArgs := 0 }]
    sliceCells := [["-txindex=1"]] }

/-- Witness for `config_copy_independent` at a concrete stored
configuration with a nonempty extra-arguments slice. -/
theorem config_copy_independent_witness :
    sampleHeap.wf 0 ∧
    ((configM sampleHeap 0).1.observe (configM sampleHeap 0).2 = sampleHeap.observe 0 ∧
    (∀ h0 : Heap, (newConfigM h0 none).1.observe (newConfigM h0 none).2 = DefaultConfig) ∧
    (∀ (v : MConfigVal) (ws : List String),
      (mutateReturnedCopy sampleHeap 0 v ws).observe 0 = sampleHeap.observe 0 ∧
      (configM (mutateReturnedCopy sampleHeap 0 v ws) 0).1.observe
        (configM (mutateReturnedCopy sampleHeap 0 v ws) 0).2 = sampleHeap.observe 0)) :=
  ⟨⟨by decide, by decide⟩, config_copy_independent sampleHeap 0 ⟨by decide, by decide⟩⟩

/- ================================================================
   Remote-call pass-through helpers, from `regtest.go`.  The remote
   endpoint, address decoding (`btcutil.DecodeAddress`), JSON
   marshalling/unmarshalling and byte-level transaction decoding are
   external collaborators, modelled by environment records; `float64`
   collaborator fields are modelled as rationals.  The library's own
   logic — the not-connected gate, argument validation, error wrapping
   and the orchestration in `EnsureWallet` — is translated explicitly.
   ================================================================ -/

/-- Abstract `btcjson.GetWalletInfoResult`. -/
structure WalletInfo where
  walletName : String
  balance : Rat
deriving DecidableEq, Repr

/-- Abstract `btcjson.CreateWalletResult`. -/
structure CreateWalletResult where
  name : String
  warning : String
deriving DecidableEq, Repr

/-- Abstract `btcjson.LoadWalletResult`. -/
structure LoadWalletResult where
  name : String
  warning : String
deriving DecidableEq, Repr

/-- Abstract `btcjson.GetTxOutResult`. -/
structure TxOutResult where
  bestBlock : String
  confirmations : Int
  value : Rat
  coinbase : Bool
deriving DecidableEq, Repr

/-- Go struct `ScantxoutsetUnspent` (source; `float64` as `Rat`). -/
structure ScantxoutsetUnspent where
  txID : String
  vout : Nat
  scriptPubKey : String
  desc : String
  amount : Rat
  height : Int
deriving DecidableEq, Repr

/-- Go struct `ScantxoutsetResult` (source; `float64` as `Rat`). -/
structure ScantxoutsetResult where
  success : Bool
  searched : Int
  unspents : List ScantxoutsetUnspent
  totalAmt : Rat
  bestBlock : String
deriving DecidableEq, Repr

/-- The parsed response of `signrawtransactionwithwallet`. -/
structure SignRawResult where
  hex : String
  complete : Bool
deriving DecidableEq, Repr

/-- Abstract `wire.MsgTx`, carried by its serialized hex form. -/
structure Tx where
  hex : String
deriving DecidableEq, Repr

/-- `json.Marshal` of a Go string (cannot fail; escaping abstracted). -/
def jsonEncode (s : String) : String := "\"" ++ s ++ "\""

/-- Remote contacts made through the RPC session, as recorded in traces. -/
inductive RemoteCall where
  | getBlockCount : RemoteCall
  | getWalletInfo : RemoteCall
  | createWallet : String → RemoteCall
  | loadWallet : String → RemoteCall
  | unloadWallet : String → RemoteCall
  | rawRequest : String → List String → RemoteCall
  | generateToAddress : Int → String → RemoteCall
  | sendToAddress : String → Int → RemoteCall
  | getTxOut : String → Nat → Bool → RemoteCall
deriving DecidableEq, Repr

/-- Behavior of the remote endpoint for one run. -/
structure Remote where
  getBlockCount : Except String Int
  getWalletInfo : Except String WalletInfo
  createWallet : String → Except String CreateWalletResult
  loadWallet : String → Except String LoadWalletResult
  unloadWallet : String → Except String Unit
  rawRequest : String → List String → Except String String
  generateToAddress : Int → String → Except String (List String)
  sendToAddress : String → Int → Except String String
  getTxOut : String → Nat → Bool → Except String (Option TxOutResult)

/-- Local fallible collaborators: address decoding against the regression
network parameters, JSON unmarshalling of responses, txid parsing. -/
structure LocalEnv where
  decodeAddr : String → Except String String
  unmarshalStr : String → Except String String
  unmarshalScan : String → Except String ScantxoutsetResult
  unmarshalSign : String → Except String SignRawResult
  parseHash : String → Except String String

/-- Go method `GetBlockCount()`. -/
def Regtest.GetBlockCount (rem : Remote) (r : Regtest) :
    Except String Int × Regtest × List RemoteCall :=
  match r.client with
  | none => (.error "RPC client not connected", r, [])
  | some _ => (rem.getBlockCount, r, [.getBlockCount])

/-- Go method `HealthCheck()`. -/
def Regtest.HealthCheck (rem : Remote) (r : Regtest) :
    Except String Unit × Regtest × List RemoteCall :=
  let (res, r1, t) := r.GetBlockCount rem
  match res with
  | .error e => (.error ("failed to get block count (health check): " ++ e), r1, t)
  | .ok _ => (.ok (), r1, t)

/-- Go method `GetWalletInformation()`. -/
def Regtest.GetWalletInformation (rem : Remote) (r : Regtest) :
    Except String WalletInfo × Regtest × List RemoteCall :=
  match r.client with
  | none => (.error "RPC client not connected", r, [])
  | some _ =>
      match rem.getWalletInfo with
      | .error e => (.error ("failed to get wallet info: " ++ e), r, [.getWalletInfo])
      | .ok info => (.ok info, r, [.getWalletInfo])

/-- Go method `CreateWallet(walletName)`. -/
def Regtest.CreateWallet (rem : Remote) (r : Regtest) (walletName : String) :
    Except String CreateWalletResult × Regtest × List RemoteCall :=
  match r.client with
  | none => (.error "RPC client not connected", r, [])
  | some _ =>
      match rem.createWallet walletName with
      | .error e => (.error ("failed to create wallet: " ++ e), r, [.createWallet walletName])
      | .ok res => (.ok res, r, [.createWallet walletName])

/-- Go method `LoadWallet(walletName)`. -/
def Regtest.LoadWallet (rem : Remote) (r : Regtest) (walletName : String) :
    Except String LoadWalletResult × Regtest × List RemoteCall :=
  match r.client with
  | none => (.error "RPC client not connected", r, [])
  | some _ =>
      match rem.loadWallet walletName with
      | .error e => (.error ("failed to load wallet: " ++ e), r, [.loadWallet walletName])
      | .ok res => (.ok res, r, [.loadWallet walletName])

/-- Go method `UnloadWallet(walletName)`. -/
def Regtest.UnloadWallet (rem : Remote) (r : Regtest) (walletName : String) :
    Except String Unit × Regtest × List RemoteCall :=
  match r.client with
  | none => (.error "RPC client not connected", r, [])
  | some _ =>
      match rem.unloadWallet walletName with
      | .error e => (.error ("failed to unload wallet: " ++ e), r, [.unloadWallet walletName])
      | .ok _ => (.ok (), r, [.unloadWallet walletName])

/-- Go method `EnsureWallet(walletName)`: load, tolerate already-loaded or
already-exists, otherwise create, and on an already-exists creation failure
retry loading. -/
def Regtest.EnsureWallet (rem : Remote) (r : Regtest) (walletName : String) :
    Except String Unit × Regtest × List RemoteCall :=
  let (res1, r1, t1) := r.LoadWallet rem walletName
  match res1 with
  | .ok _ => (.ok (), r1, t1)
  | .error e =>
      if strContains e "already loaded" || strContains e "already exists" then
        (.ok (), r1, t1)
      else
        let (res2, r2, t2) := r1.CreateWallet rem walletName
        match res2 with
        | .ok _ => (.ok (), r2, t1 ++ t2)
        | .error e2 =>
            if strContains e2 "already exists" then
              let (res3, r3, t3) := r2.LoadWallet rem walletName
              match res3 with
              | .ok _ => (.ok (), r3, t1 ++ t2 ++ t3)
              | .error e3 =>
                  (.error ("wallet exists but failed to load: " ++ e3), r3, t1 ++ t2 ++ t3)
            else
              (.error ("failed to create wallet: " ++ e2), r2, t1 ++ t2)

/-- Go method `GenerateBech32(labelStr)`. -/
def Regtest.GenerateBech32 (rem : Remote) (env : LocalEnv) (r : Regtest) (labelStr : String) :
    Except String String × Regtest × List RemoteCall :=
  match r.client with
  | none => (.error "RPC client not connected", r, [])
  | some _ =>
      let params := [jsonEncode labelStr, jsonEncode "bech32"]
      match rem.rawRequest "getnewaddress" params with
      | .error e =>
          (.error ("failed to get new address: " ++ e), r, [.rawRequest "getnewaddress" params])
      | .ok resp =>
          match env.unmarshalStr resp with
          | .error e =>
              (.error ("failed to unmarshal address response: " ++ e), r,
                [.rawRequest "getnewaddress" params])
          | .ok address => (.ok address, r, [.rawRequest "getnewaddress" params])

/-- Go method `GenerateBech32m(labelStr)`. -/
def Regtest.GenerateBech32m (rem : Remote) (env : LocalEnv) (r : Regtest) (labelStr : String) :
    Except String String × Regtest × List RemoteCall :=
  match r.client with
  | none => (.error "RPC client not connected", r, [])
  | some _ =>
      let params := [jsonEncode labelStr, jsonEncode "bech32m"]
      match rem.rawRequest "getnewaddress" params with
      | .error e =>
          (.error ("failed to get new address: " ++ e), r, [.rawRequest "getnewaddress" params])
      | .ok resp =>
          match env.unmarshalStr resp with
          | .error e =>
              (.error ("failed to unmarshal address response: " ++ e), r,
                [.rawRequest "getnewaddress" params])
          | .ok address => (.ok address, r, [.rawRequest "getnewaddress" params])

/-- Go method `Warp(blocks, miner)`: the not-connected check comes first,
then the positivity and non-emptiness validations, then address decoding,
then the remote call. -/
def Regtest.Warp (rem : Remote) (env : LocalEnv) (r : Regtest) (blocks : Int) (miner : String) :
    Except String Unit × Regtest × List RemoteCall :=
  match r.client with
  | none => (.error "RPC client not connected", r, [])
  | some _ =>
      if blocks ≤ 0 then
        (.error ("blocks must be greater than 0, got " ++ toString blocks), r, [])
      else if miner = "" then
        (.error "miner must be provided", r, [])
      else
        match env.decodeAddr miner with
        | .error e => (.error ("failed to decode miner address: " ++ e), r, [])
        | .ok addr =>
            match rem.generateToAddress blocks addr with
            | .error e =>
                (.error ("failed to generate blocks: " ++ e), r, [.generateToAddress blocks addr])
            | .ok _ => (.ok (), r, [.generateToAddress blocks addr])

/-- Go method `SendToAddress(addressStr, sats)`: not-connected check first,
then validations, then decoding, then the remote call. -/
def Regtest.SendToAddress (rem : Remote) (env : LocalEnv) (r : Regtest)
    (addressStr : String) (sats : Int) :
    Except String String × Regtest × List RemoteCall :=
  match r.client with
  | none => (.error "RPC client not connected", r, [])
  | some _ =>
      if sats ≤ 0 then
        (.error "amount must be greater than 0", r, [])
      else if addressStr = "" then
        (.error "address is empty", r, [])
      else
        match env.decodeAddr addressStr with
        | .error e => (.error ("failed to decode address: " ++ e), r, [])
        | .ok address =>
            match rem.sendToAddress address sats with
            | .error e =>
                (.error ("failed to send to address: " ++ e), r, [.sendToAddress address sats])
            | .ok txid => (.ok txid, r, [.sendToAddress address sats])

/-- Go method `GetTxOut(txid, vout, includeMempool)`. -/
def Regtest.GetTxOut (rem : Remote) (r : Regtest) (txid : String) (vout : Nat)
    (includeMempool : Bool) :
    Except String (Option TxOutResult) × Regtest × List RemoteCall :=
  match r.client with
  | none => (.error "RPC client not connected", r, [])
  | some _ =>
      match rem.getTxOut txid vout includeMempool with
      | .error e => (.error ("failed to get tx out: " ++ e), r, [.getTxOut txid vout includeMempool])
      | .ok res => (.ok res, r, [.getTxOut txid vout includeMempool])

/-- Go method `ScanTxOutSetForAddress(address)`. -/
def Regtest.ScanTxOutSetForAddress (rem : Remote) (env : LocalEnv) (r : Regtest)
    (address : String) :
    Except String (List ScantxoutsetUnspent) × Regtest × List RemoteCall :=
  match r.client with
  | none => (.error "RPC client not connected", r, [])
  | some _ =>
      let descriptor := "addr(" ++ address ++ ")"
      let params := [jsonEncode "start", "[" ++ jsonEncode descriptor ++ "]"]
      match rem.rawRequest "scantxoutset" params with
      | .error e => (.error ("scantxoutset failed: " ++ e), r, [.rawRequest "scantxoutset" params])
      | .ok resp =>
          match env.unmarshalScan resp with
          | .error e => (.error ("failed to unmarshal: " ++ e), r, [.rawRequest "scantxoutset" params])
          | .ok result =>
              if !result.success then
                (.error "scantxoutset was not successful", r, [.rawRequest "scantxoutset" params])
              else
                (.ok result.unspents, r, [.rawRequest "scantxoutset" params])

/-- Go method `SignRawTransactionWithWallet(tx)`. -/
def Regtest.SignRawTransactionWithWallet (rem : Remote) (env : LocalEnv) (r : Regtest)
    (tx : Tx) :
    Except String Tx × Regtest × List RemoteCall :=
  match r.client with
  | none => (.error "RPC client not connected", r, [])
  | some _ =>
      let params := [jsonEncode tx.hex]
      match rem.rawRequest "signrawtransactionwithwallet" params with
      | .error e =>
          (.error ("failed to sign transaction: " ++ e), r,
            [.rawRequest "signrawtransactionwithwallet" params])
      | .ok resp =>
          match env.unmarshalSign resp with
          | .error e =>
              (.error ("failed to unmarshal response: " ++ e), r,
                [.rawRequest "signrawtransactionwithwallet" params])
          | .ok result =>
              if !result.complete then
                (.error "transaction signing incomplete", r,
                  [.rawRequest "signrawtransactionwithwallet" params])
              else
                (.ok { hex := result.hex }, r,
                  [.rawRequest "signrawtransactionwithwallet" params])

/-- Go method `BroadcastTransaction(tx)`. -/
def Regtest.BroadcastTransaction (rem : Remote) (env : LocalEnv) (r : Regtest) (tx : Tx) :
    Except String String × Regtest × List RemoteCall :=
  match r.client with
  | none => (.error "RPC client not connected", r, [])
  | some _ =>
      let params := [jsonEncode tx.hex]
      match rem.rawRequest "sendrawtransaction" params with
      | .error e =>
          (.error ("failed to broadcast transaction: " ++ e), r,
            [.rawRequest "sendrawtransaction" params])
      | .ok resp =>
          match env.unmarshalStr resp with
          | .error e =>
              (.error ("failed to unmarshal txid: " ++ e), r,
                [.rawRequest "sendrawtransaction" params])
          | .ok txidStr =>
              match env.parseHash txidStr with
              | .error e =>
                  (.error ("failed to parse txid: " ++ e), r,
                    [.rawRequest "sendrawtransaction" params])
              | .ok txid => (.ok txid, r, [.rawRequest "sendrawtransaction" params])

/-- A remote endpoint whose requests all succeed (used only by witnesses;
never reached when no session exists). -/
def sampleRemote : Remote :=
  { getBlockCount := .ok 0
    getWalletInfo := .ok { walletName := "w", balance := 0 }
    createWallet := fun n => .ok { name := n, warning := "" }
    loadWallet := fun n => .ok { name := n, warning := "" }
    unloadWallet := fun _ => .ok ()
    rawRequest := fun _ _ => .ok (jsonEncode "bcrt1qexample")
    generateToAddress := fun _ _ => .ok []
    sendToAddress := fun _ _ => .ok "txid"
    getTxOut := fun _ _ _ => .ok none }

/-- Local collaborators that always succeed (used only by witnesses). -/
def sampleLocalEnv : LocalEnv :=
  { decodeAddr := fun a => .ok a
    unmarshalStr := fun s => .ok s
    unmarshalScan := fun _ => .ok
      { success := true, searched := 0, unspents := [], totalAmt := 0, bestBlock := "" }
    unmarshalSign := fun s => .ok { hex := s, complete := true }
    parseHash := fun s => .ok s }

/-- C10: every remote-call helper invoked while no RPC session is
established returns an error stating the RPC client is not connected,
contacts no remote endpoint (its remote trace is empty) and leaves the
instance unchanged; and because the conclusion holds for arbitrary —
including invalid — arguments, the not-connected check precedes every
argument validation. -/
theorem helpers_error_when_not_connected (rem : Remote) (env : LocalEnv) (r : Regtest)
    (hc : r.client = none) :
    r.GetBlockCount rem = (.error "RPC client not connected", r, []) ∧
    r.HealthCheck rem =
      (.error ("failed to get block count (health check): " ++ "RPC client not connected"),
        r, []) ∧
    r.GetWalletInformation rem = (.error "RPC client not connected", r, []) ∧
    (∀ n, r.CreateWallet rem n = (.error "RPC client not connected", r, [])) ∧
    (∀ n, r.LoadWallet rem n = (.error "RPC client not connected", r, [])) ∧
    (∀ n, r.UnloadWallet rem n = (.error "RPC client not connected", r, [])) ∧
    (∀ n, r.EnsureWallet rem n =
      (.error ("failed to create wallet: " ++ "RPC client not connected"), r, [])) ∧
    (∀ lbl, r.GenerateBech32 rem env lbl = (.error "RPC client not connected", r, [])) ∧
    (∀ lbl, r.GenerateBech32m rem env lbl = (.error "RPC client not connected", r, [])) ∧
    (∀ (blocks : Int) (miner : String),
      r.Warp rem env blocks miner = (.error "RPC client not connected", r, [])) ∧
    (∀ (addr : String) (sats : Int),
      r.SendToAddress rem env addr sats = (.error "RPC client not connected", r, [])) ∧
    (∀ (txid : String) (vout : Nat) (im : Bool),
      r.GetTxOut rem txid vout im = (.error "RPC client not connected", r, [])) ∧
    (∀ addr, r.ScanTxOutSetForAddress rem env addr =
      (.error "RPC client not connected", r, [])) ∧
    (∀ tx, r.SignRawTransactionWithWallet rem env tx =
      (.error "RPC client not connected", r, [])) ∧
    (∀ tx, r.BroadcastTransaction rem env tx = (.error "RPC client not connected", r, [])) := by
  have h1 : strContains "RPC client not connected" "already loaded" = false := by decide
  have h2 : strContains "RPC client not connected" "already exists" = false := by decide
  refine ⟨?_, ?_, ?_, ?_, ?_, ?_, ?_, ?_, ?_, ?_, ?_, ?_, ?_, ?_, ?_⟩
  · simp [Regtest.GetBlockCount, hc]
  · simp [Regtest.HealthCheck, Regtest.GetBlockCount, hc]
  · simp [Regtest.GetWalletInformation, hc]
  · intro n; simp [Regtest.CreateWallet, hc]
  · intro n; simp [Regtest.LoadWallet, hc]
  · intro n; simp [Regtest.UnloadWallet, hc]
  · intro n
    simp [Regtest.EnsureWallet, Regtest.LoadWallet, Regtest.CreateWallet, hc, h1, h2]
  · intro lbl; simp [Regtest.GenerateBech32, hc]
  · intro lbl; simp [Regtest.GenerateBech32m, hc]
  · intro blocks miner; simp [Regtest.Warp, hc]
  · intro addr sats; simp [Regtest.SendToAddress, hc]
  · intro txid vout im; simp [Regtest.GetTxOut, hc]
  · intro addr; simp [Regtest.ScanTxOutSetForAddress, hc]
  · intro tx; simp [Regtest.SignRawTransactionWithWallet, hc]
  · intro tx; simp [Regtest.BroadcastTransaction, hc]

/-- Witness for `helpers_error_when_not_connected` at a concrete
disconnected instance, with deliberately invalid arguments for the
validating helpers. -/
theorem helpers_error_when_not_connected_witness :
    sampleRT.GetBlockCount sampleRemote = (.error "RPC client not connected", sampleRT, []) ∧
    sampleRT.Warp sampleRemote sampleLocalEnv 0 "" =
      (.error "RPC client not connected", sampleRT, []) ∧
    sampleRT.SendToAddress sampleRemote sampleLocalEnv "" (-5) =
      (.error "RPC client not connected", sampleRT, []) ∧
    sampleRT.EnsureWallet sampleRemote "miner" =
      (.error ("failed to create wallet: " ++ "RPC client not connected"), sampleRT, []) := by
  obtain ⟨h1, h2, h3, h4, h5, h6, h7, h8, h9, h10, h11, h12, h13, h14, h15⟩ :=
    helpers_error_when_not_connected sampleRemote sampleLocalEnv sampleRT rfl
  exact ⟨h1, h10 0 "", h11 "" (-5), h7 "miner"⟩

/- ================================================================
   Concurrent model of the per-instance mutex (`mu`).  Each lifecycle
   operation's body runs between `mu.Lock()` and `mu.Unlock()`; a thread
   is the list of atomic steps it still has to take, and a scheduler
   interleaves two threads arbitrarily, blocking a `lock` step while the
   mutex is held.  Two instances are two disjoint (state, mutex) pairs:
   the `Regtest` struct has no package-level mutable state.
   ================================================================ -/

/-- One atomic step of a thread: acquire the instance's mutex, release it,
or perform one atomic action of the operation's body. -/
inductive CStep (σ : Type) where
  | lock : CStep σ
  | unlock : CStep σ
  | act : (σ → σ) → CStep σ

/-- One instance as seen by the scheduler: its state and its mutex. -/
structure IWorld (σ : Type) where
  s : σ
  locked : Bool

/-- A lifecycle operation as a thread: its body's atomic actions bracketed
by the instance's mutex, exactly as `mu.Lock(); body; mu.Unlock()`. -/
def prog {σ : Type} (acts : List (σ → σ)) : List (CStep σ) :=
  CStep.lock :: (acts.map CStep.act ++ [CStep.unlock])

/-- Sequential composition of a body's actions. -/
def applyActs {σ : Type} (acts : List (σ → σ)) (s : σ) : σ :=
  acts.foldl (fun x f => f x) s

theorem applyActs_cons {σ : Type} (f : σ → σ) (fs : List (σ → σ)) (s : σ) :
    applyActs (f :: fs) s = applyActs fs (f s) := rfl

/-- One scheduler step of a single thread on its instance; `none` when the
thread is finished or blocked on the mutex. -/
def stepT {σ : Type} (w : IWorld σ) : List (CStep σ) → Option (IWorld σ × List (CStep σ))
  | [] => none
  | CStep.lock :: rest => if w.locked then none else some ({ w with locked := true }, rest)
  | CStep.unlock :: rest => some ({ w with locked := false }, rest)
  | CStep.act f :: rest => some ({ w with s := f w.s }, rest)

/-- Interleaved execution of two threads on ONE instance, following a
schedule (`false` steps the first thread, `true` the second); `none` for
schedules that step a finished or blocked thread. -/
def runI {σ : Type} : List Bool → IWorld σ → List (CStep σ) → List (CStep σ) →
    Option (IWorld σ × List (CStep σ) × List (CStep σ))
  | [], w, a, b => some (w, a, b)
  | false :: rest, w, a, b =>
      match stepT w a with
      | none => none
      | some (w', a') => runI rest w' a' b
  | true :: rest, w, a, b =>
      match stepT w b with
      | none => none
      | some (w', b') => runI rest w' a b'

/-- Interleaved execution of two threads on TWO DISTINCT instances: the
first thread touches only the first instance's state and mutex, the second
only the second's. -/
def runD {σ : Type} : List Bool → IWorld σ × IWorld σ → List (CStep σ) → List (CStep σ) →
    Option ((IWorld σ × IWorld σ) × List (CStep σ) × List (CStep σ))
  | [], w, a, b => some (w, a, b)
  | false :: rest, w, a, b =>
      match stepT w.1 a with
      | none => none
      | some (w', a') => runD rest (w', w.2) a' b
  | true :: rest, w, a, b =>
      match stepT w.2 b with
      | none => none
      | some (w', b') => runD rest (w.1, w') a b'

/-- The effect of a step list run alone. -/
def denoteI {σ : Type} : List (CStep σ) → IWorld σ → IWorld σ
  | [], w => w
  | CStep.lock :: rest, w => denoteI rest { w with locked := true }
  | CStep.unlock :: rest, w => denoteI rest { w with locked := false }
  | CStep.act f :: rest, w => denoteI rest { w with s := f w.s }

/-- A successful scheduler step agrees with the solo denotation. -/
theorem stepT_denote {σ : Type} (w w' : IWorld σ) (st st' : List (CStep σ))
    (h : stepT w st = some (w', st')) : denoteI st w = denoteI st' w' := by
  cases st with
  | nil => simp [stepT] at h
  | cons c rest =>
    cases c with
    | lock =>
      by_cases hl : w.locked
      · simp [stepT, hl] at h
      · simp only [stepT, if_neg hl, Option.some.injEq, Prod.mk.injEq] at h
        obtain ⟨h1, h2⟩ := h
        subst h1
        subst h2
        rfl
    | unlock =>
      simp only [stepT, Option.some.injEq, Prod.mk.injEq] at h
      obtain ⟨h1, h2⟩ := h
      subst h1
      subst h2
      rfl
    | act f =>
      simp only [stepT, Option.some.injEq, Prod.mk.injEq] at h
      obtain ⟨h1, h2⟩ := h
      subst h1
      subst h2
      rfl

/-- The solo denotation of a lifecycle body: the actions applied in order,
with the mutex released at the end. -/
theorem denoteI_body {σ : Type} (acts : List (σ → σ)) (w : IWorld σ) :
    denoteI (acts.map CStep.act ++ [CStep.unlock]) w =
      { s := applyActs acts w.s, locked := false } := by
  induction acts generalizing w with
  | nil => simp [denoteI, applyActs]
  | cons f fs ih => simp [denoteI, applyActs_cons, ih]

theorem denoteI_prog {σ : Type} (acts : List (σ → σ)) (w : IWorld σ) :
    denoteI (prog acts) w = { s := applyActs acts w.s, locked := false } := by
  simp [prog, denoteI, denoteI_body]

/-- Cross-instance independence: in any complete interleaving of two
threads on two distinct instances, each instance ends in exactly the state
its own thread's solo run produces — the other thread cannot interfere. -/
theorem runD_components {σ : Type} (sch : List Bool) (w : IWorld σ × IWorld σ)
    (a b : List (CStep σ)) (fw : IWorld σ × IWorld σ)
    (h : runD sch w a b = some (fw, [], [])) :
    fw.1 = denoteI a w.1 ∧ fw.2 = denoteI b w.2 := by
  induction sch generalizing w a b with
  | nil =>
    simp only [runD, Option.some.injEq, Prod.mk.injEq] at h
    obtain ⟨h1, h2, h3⟩ := h
    subst h2
    subst h3
    simp [denoteI, h1]
  | cons t rest ih =>
    cases t with
    | false =>
      simp only [runD] at h
      cases hs : stepT w.1 a with
      | none => rw [hs] at h; simp at h
      | some p =>
        rw [hs] at h
        have hrec := ih (p.1, w.2) p.2 b h
        exact ⟨by rw [hrec.1, stepT_denote w.1 p.1 a p.2 hs], hrec.2⟩
    | true =>
      simp only [runD] at h
      cases hs : stepT w.2 b with
      | none => rw [hs] at h; simp at h
      | some p =>
        rw [hs] at h
        have hrec := ih (w.1, p.1) a p.2 h
        exact ⟨hrec.1, by rw [hrec.2, stepT_denote w.2 p.1 b p.2 hs]⟩

/-- A run with both threads already finished changes nothing. -/
theorem runI_done {σ : Type} (sch : List Bool) (w fw : IWorld σ)
    (h : runI sch w [] [] = some (fw, [], [])) : fw = w := by
  cases sch with
  | nil =>
    simp only [runI, Option.some.injEq, Prod.mk.injEq] at h
    exact h.1.symm
  | cons t rest => cases t <;> simp [runI, stepT] at h

/-- A thread alone in its critical section runs its remaining actions and
releases the mutex. -/
theorem runI_soloCrit {σ : Type} (sch : List Bool) (acts : List (σ → σ)) (w fw : IWorld σ)
    (h : runI sch w [] (acts.map CStep.act ++ [CStep.unlock]) = some (fw, [], [])) :
    fw = { s := applyActs acts w.s, locked := false } := by
  induction sch generalizing acts w with
  | nil => simp [runI] at h
  | cons t rest ih =>
    cases t with
    | false => simp [runI, stepT] at h
    | true =>
      simp only [runI] at h
      cases acts with
      | nil =>
        simp only [List.map_nil, List.nil_append, stepT] at h
        exact (runI_done rest _ _ h).trans (by simp [applyActs])
      | cons f fs =>
        simp only [List.map_cons, List.cons_append, stepT] at h
        rw [applyActs_cons]
        exact ih fs { w with s := f w.s } h

/-- A thread alone at its mutex, with the mutex free, completes its whole
operation. -/
theorem runI_solo {σ : Type} (sch : List Bool) (bs : List (σ → σ)) (w fw : IWorld σ)
    (hl : w.locked = false)
    (h : runI sch w [] (prog bs) = some (fw, [], [])) :
    fw = { s := applyActs bs w.s, locked := false } := by
  cases sch with
  | nil => simp [runI, prog] at h
  | cons t rest =>
    cases t with
    | false => simp [runI, stepT] at h
    | true =>
      simp only [runI] at h
      have hs : stepT w (prog bs) =
          some ({ w with locked := true }, bs.map CStep.act ++ [CStep.unlock]) := by
        simp [stepT, prog, hl]
      rw [hs] at h
      exact runI_soloCrit rest bs { w with locked := true } fw h

/-- Mutual exclusion: while the first thread is inside its critical section
on an instance, the second thread — parked at its `lock` step on the same
instance — cannot run until the first finishes, so the two bodies compose
serially. -/
theorem runI_crit {σ : Type} (sch : List Bool) (acts bs : List (σ → σ)) (w fw : IWorld σ)
    (hl : w.locked = true)
    (h : runI sch w (acts.map CStep.act ++ [CStep.unlock]) (prog bs) = some (fw, [], [])) :
    fw = { s := applyActs bs (applyActs acts w.s), locked := false } := by
  induction sch generalizing acts w with
  | nil => simp [runI] at h
  | cons t rest ih =>
    cases t with
    | true => simp [runI, prog, stepT, hl] at h
    | false =>
      simp only [runI] at h
      cases acts with
      | nil =>
        simp only [List.map_nil, List.nil_append, stepT] at h
        exact (runI_solo rest bs _ fw rfl h).trans (by simp [applyActs])
      | cons f fs =>
        simp only [List.map_cons, List.cons_append, stepT] at h
        rw [applyActs_cons]
        exact ih fs { w with s := f w.s } hl h

/-- Swapping the two threads and complementing the schedule gives the same
run with the result threads swapped. -/
theorem runI_swap {σ : Type} (sch : List Bool) (w : IWorld σ) (a b : List (CStep σ)) :
    runI (sch.map (fun t => !t)) w b a =
      Option.map (fun p => (p.1, p.2.2, p.2.1)) (runI sch w a b) := by
  induction sch generalizing w a b with
  | nil => rfl
  | cons t rest ih =>
    cases t with
    | false =>
      simp only [List.map_cons, Bool.not_false, runI]
      cases hs : stepT w a with
      | none => simp
      | some p => simpa using ih p.1 p.2 b
    | true =>
      simp only [List.map_cons, Bool.not_true, runI]
      cases hs : stepT w b with
      | none => simp
      | some p => simpa using ih p.1 a p.2

/-- A complete run whose first scheduled step hands the mutex to the first
thread serializes as first-then-second. -/
theorem runI_lockFirst {σ : Type} (rest : List Bool) (as bs : List (σ → σ))
    (w fw : IWorld σ) (hl : w.locked = false)
    (h : runI (false :: rest) w (prog as) (prog bs) = some (fw, [], [])) :
    fw = { s := applyActs bs (applyActs as w.s), locked := false } := by
  simp only [runI] at h
  have hs : stepT w (prog as) =
      some ({ w with locked := true }, as.map CStep.act ++ [CStep.unlock]) := by
    simp [stepT, prog, hl]
  rw [hs] at h
  exact runI_crit rest as bs { w with locked := true } fw rfl h

/-- The body of `Stop` under the instance mutex, as its sequence of atomic
effects on (instance, external world): the `clientMu` section shutting down
and clearing the session, then the controller's stop invocation. -/
def stopActs {σ : Type} (exe : StExec σ) : List (Regtest × σ → Regtest × σ) :=
  [fun p => ({ p.1 with client := none }, p.2),
   fun p => (p.1, (exe p.1.stopCall p.2).2)]

/-- The body of `StartContext` under the instance mutex: controller start
and session establishment, as one atomic effect on (instance, world). -/
def startActs {σ : Type} (exe : StExec σ) (mk : MkClient) :
    List (Regtest × σ → Regtest × σ) :=
  [fun p =>
    ((p.1.startContext exe mk false p.2).2.1, (p.1.startContext exe mk false p.2).2.2.1)]

/-- The body of `IsRunning` under the instance mutex: one controller status
query, which touches only the external world. -/
def isRunningActs {σ : Type} (exe : StExec σ) : List (Regtest × σ → Regtest × σ) :=
  [fun p => (p.1, (p.1.isRunning exe p.2).2.1)]

/-- C2: each instance's own mutex serializes that instance's Start, Stop and
IsRunning bodies — every complete interleaving of two lifecycle operations
on the SAME instance yields one of the two serial outcomes — while
operations on two DISTINCT instances act on disjoint (state, mutex) pairs,
so every complete interleaving gives each instance exactly its own
operation's effect, with no interference; the final conjuncts identify the
act lists of `Stop`, `StartContext` and `IsRunning` with the sequential
operations' state effects. -/
theorem lifecycle_mutex_serializes :
    (∀ (σ : Type) (as bs : List (σ → σ)) (sch : List Bool) (w fw : IWorld σ),
      w.locked = false →
      runI sch w (prog as) (prog bs) = some (fw, [], []) →
      fw = { s := applyActs bs (applyActs as w.s), locked := false } ∨
      fw = { s := applyActs as (applyActs bs w.s), locked := false }) ∧
    (∀ (σ : Type) (as bs : List (σ → σ)) (sch : List Bool) (w fw : IWorld σ × IWorld σ),
      runD sch w (prog as) (prog bs) = some (fw, [], []) →
      fw.1 = { s := applyActs as w.1.s, locked := false } ∧
      fw.2 = { s := applyActs bs w.2.s, locked := false }) ∧
    (∀ (σ : Type) (exe : StExec σ) (r : Regtest) (w : σ),
      applyActs (stopActs exe) (r, w) = ((r.stop exe w).2.1, (r.stop exe w).2.2.1)) ∧
    (∀ (σ : Type) (exe : StExec σ) (mk : MkClient) (r : Regtest) (w : σ),
      applyActs (startActs exe mk) (r, w) =
        ((r.startContext exe mk false w).2.1, (r.startContext exe mk false w).2.2.1)) ∧
    (∀ (σ : Type) (exe : StExec σ) (r : Regtest) (w : σ),
      applyActs (isRunningActs exe) (r, w) = (r, (r.isRunning exe w).2.1)) := by
  refine ⟨?_, ?_, ?_, ?_, ?_⟩
  · intro σ as bs sch w fw hl h
    cases sch with
    | nil => simp [runI, prog] at h
    | cons t rest =>
      cases t with
      | false => exact Or.inl (runI_lockFirst rest as bs w fw hl h)
      | true =>
        right
        have hswap := runI_swap (true :: rest) w (prog as) (prog bs)
        rw [h] at hswap
        exact runI_lockFirst (rest.map (fun t => !t)) bs as w fw hl (by simpa using hswap)
  · intro σ as bs sch w fw h
    have hc := runD_components sch w (prog as) (prog bs) fw h
    rw [denoteI_prog, denoteI_prog] at hc
    exact hc
  · intro σ exe r w
    rcases r with ⟨cfg, sp, td, cl⟩
    cases cl with
    | some c =>
      simp only [applyActs, stopActs, Regtest.stop, List.foldl]
      split <;> rfl
    | none =>
      simp only [applyActs, stopActs, Regtest.stop, List.foldl]
      split <;> rfl
  · intro σ exe mk r w
    rfl
  · intro σ exe r w
    rfl

/-- Witness for `lifecycle_mutex_serializes`: a concrete complete
interleaving of two bodies on one instance, and the act-list identification
for `Stop` at a concrete instance. -/
theorem lifecycle_mutex_serializes_witness :
    (({ s := 0, locked := false } : IWorld Nat).locked = false) ∧
    (runI [false, false, false, true, true, true] ({ s := 0, locked := false } : IWorld Nat)
        (prog [fun n => n + 1]) (prog [fun n => n * 2]) =
      some ({ s := 2, locked := false }, [], [])) ∧
    (({ s := 2, locked := false } : IWorld Nat) =
        { s := applyActs [fun n => n * 2] (applyActs [fun n => n + 1] 0), locked := false } ∨
      ({ s := 2, locked := false } : IWorld Nat) =
        { s := applyActs [fun n => n + 1] (applyActs [fun n => n * 2] 0), locked := false }) ∧
    applyActs (stopActs okExec) (sampleRTConnected, ()) =
      ((sampleRTConnected.stop okExec ()).2.1, (sampleRTConnected.stop okExec ()).2.2.1) :=
  ⟨rfl, rfl,
   lifecycle_mutex_serializes.1 Nat [fun n => n + 1] [fun n => n * 2]
     [false, false, false, true, true, true] { s := 0, locked := false }
     { s := 2, locked := false } rfl rfl,
   lifecycle_mutex_serializes.2.2.1 Unit okExec sampleRTConnected ()⟩
